import Mathlib

/-!
# Verification of the tiered API-quota engine (`ApiUsageService`)

Shallow embedding of `src/backend/services/api_usage_service.py` together with
the data model of `src/backend/models/user_models.py`.  Python dicts stored in
the document store are modelled as Lean structures (fields read through
`dict.get(key, default)` in the source become `Option` fields read through
`Option.getD`, so that an absent key is representable); the document store
itself is modelled as an explicit `Store` value threaded through every
operation, with Firestore `get` calls reading the store and `set` calls
replacing documents.  Wall-clock time enters the code only through the two
formatted strings `_get_current_month_str` / `_get_current_day_str`; they are
modelled as an explicit `Now` parameter holding those strings.  Python integer
arithmetic is exact and unbounded, so counters and limits are Lean `Int`.
-/

namespace ApiUsage

/-- The two wall-clock strings the service derives from `datetime.now(timezone.utc)`:
`_get_current_month_str` (format `YYYY-MM`) and `_get_current_day_str`
(format `YYYY-MM-DD`). -/
structure Now where
  monthStr : String
  dayStr : String
deriving DecidableEq, Repr

/-- A user API usage document, `artifacts/{appId}/users/{userId}/api_usage/{api_id}`:
`{ monthly_usage, daily_usage, last_reset_month, last_reset_day }`.
Documents of this collection are only ever created by `increment_api_usage`,
which always writes all four fields, so the fields are total here. -/
structure UsageData where
  monthly_usage : Int
  daily_usage : Int
  last_reset_month : String
  last_reset_day : String
deriving DecidableEq, Repr

/-- A user-defined API configuration document
(`user_api_configs/{api_id}`).  Every numeric field is read in the source via
`dict.get(key, None)` and the boolean via `dict.get(key, False)`, so the
numeric fields are `Option Int` (absent key = `none`) and the boolean records
its `False` default when absent. -/
structure UserApiConfig where
  creator_override_unlimited : Bool
  creator_override_monthly : Option Int
  creator_override_daily : Option Int
  user_defined_limit_monthly : Option Int
  user_defined_limit_daily : Option Int
deriving DecidableEq, Repr

/-- One tier's entry in the `api_limits` global configuration document:
`{ monthly_calls, daily_calls, dynamic_monthly_adjustment, dynamic_daily_adjustment }`.
Each field is read with a default in the source (`-1` for the static limits,
`0` for the adjustments), so each is optional here. -/
structure TierLimits where
  monthly_calls : Option Int
  daily_calls : Option Int
  dynamic_monthly_adjustment : Option Int
  dynamic_daily_adjustment : Option Int
deriving DecidableEq, Repr

/-- The tier entry produced by looking a tier up in an empty limits map:
`global_api_limits_config.get(user_tier, {})` yields the empty dict, in which
every field read falls back to its default. -/
def TierLimits.empty : TierLimits :=
  { monthly_calls := none, daily_calls := none
    dynamic_monthly_adjustment := none, dynamic_daily_adjustment := none }

/-- `UserProfile` from `backend/models/user_models.py` (a Pydantic `BaseModel`).
Its declared fields are exactly `user_id`, `username`, `email`, `tier`
(default "free"), `roles` (default ["user"]), `status` (default "active"),
`created_at`, `last_login_at`.  The timestamps play no role in the quota
engine and are omitted.  The model declares NO `unlimited_api_access` field,
and, being a Pydantic model rather than a dict, it has NO `get` method: an
attribute access `user_profile.get` raises `AttributeError` at run time. -/
structure UserProfile where
  user_id : String
  username : String
  email : String
  tier : String
  roles : List String
  status : String
deriving DecidableEq, Repr

/-- The ways the embedded Python code can raise. -/
inductive PyErr where
  /-- Attribute access on an object that lacks the attribute. -/
  | attributeError : PyErr
  /-- A failed document-store call (network / Firestore fault). -/
  | storeFailure : PyErr
deriving DecidableEq, Repr

/-- Lookup in a per-user, per-API document collection keyed by
`(user_id, api_id)`. -/
def lookup2 {α : Type} (docs : List (String × String × α)) (uid api : String) :
    Option α :=
  match docs with
  | [] => none
  | (u, a, x) :: rest => if u = uid ∧ a = api then some x else lookup2 rest uid api

/-- The document-store state visible to the quota engine: the per-user
`api_usage` collection, the per-user `user_api_configs` collection, and the
global `api_limits` document (`none` when the document is absent; its
`limits` map is an association list from tier name to that tier's limits). -/
structure Store where
  api_usage : List (String × String × UsageData)
  user_api_configs : List (String × String × UserApiConfig)
  api_limits : Option (List (String × TierLimits))
deriving DecidableEq, Repr

/-- `get_user_api_usage_document`: a Firestore read; returns the store
unchanged together with the document, when present. -/
def get_user_api_usage_document (s : Store) (uid api : String) :
    Store × Option UsageData :=
  (s, lookup2 s.api_usage uid api)

/-- `get_user_api_config_document`: a Firestore read. -/
def get_user_api_config_document (s : Store) (uid api : String) :
    Store × Option UserApiConfig :=
  (s, lookup2 s.user_api_configs uid api)

/-- `get_api_limits_config`: reads the `api_limits` global document and
returns `limits_doc.get('limits', {})` when the document exists, `{}`
otherwise. -/
def get_api_limits_config (s : Store) : Store × List (String × TierLimits) :=
  (s, s.api_limits.getD [])

/-- `_reset_usage_if_needed`: zeroes `monthly_usage` and stamps
`last_reset_month` when the stored month differs from the current month
string, and independently zeroes `daily_usage` and stamps `last_reset_day`
when the stored day differs from the current day string. -/
def _reset_usage_if_needed (now : Now) (u : UsageData) : UsageData :=
  let u1 :=
    if u.last_reset_month ≠ now.monthStr then
      { u with monthly_usage := 0, last_reset_month := now.monthStr }
    else u
  if u1.last_reset_day ≠ now.dayStr then
    { u1 with daily_usage := 0, last_reset_day := now.dayStr }
  else u1

/-- The fresh usage document `increment_api_usage` (and `check_api_limit`)
builds when no usage document exists yet. -/
def initUsage (now : Now) : UsageData :=
  { monthly_usage := 0, daily_usage := 0
    last_reset_month := now.monthStr, last_reset_day := now.dayStr }

/-- The usage value `check_api_limit` works with: the stored document after
period reconciliation, or a fresh all-zero document stamped with the current
period when none is stored (`if not user_api_usage: ... else:
_reset_usage_if_needed(...)` in the source). -/
def reconciledUsage (now : Now) (usage? : Option UsageData) : UsageData :=
  match usage? with
  | none => initUsage now
  | some u => _reset_usage_if_needed now u

/-- `check_api_limit(user_profile, api_id)`.  Faithful to the source,
threading the store through every document-store call and returning the pair
(final store, outcome).

Stage 1 (creator global override) is the source line
`if is_creator and user_profile.get('unlimited_api_access', False)`.
`user_profile` is a Pydantic `UserProfile` (see that structure's docstring):
it has no `get` attribute, so whenever `is_creator` is true the conjunction
evaluates its right operand and the attribute lookup raises
`AttributeError`, which propagates (there is no `try` in this function).
When `is_creator` is false, Python's `and` short-circuits and stage 1 is
skipped without evaluating `user_profile.get`.

Stages 2-4 translate the source line by line: per-user creator overrides,
user-defined limits, then tier defaults with dynamic adjustments. -/
def check_api_limit (p : UserProfile) (api_id : String) (now : Now)
    (store : Store) : Store × Except PyErr Bool :=
  let is_creator := "creator" ∈ p.roles
  if is_creator then
    -- `user_profile.get('unlimited_api_access', False)` : AttributeError
    (store, Except.error PyErr.attributeError)
  else
    let (s1, usage?) := get_user_api_usage_document store p.user_id api_id
    let user_api_usage := reconciledUsage now usage?
    let current_monthly_usage := user_api_usage.monthly_usage
    let current_daily_usage := user_api_usage.daily_usage
    let (s2, user_api_config) := get_user_api_config_document s1 p.user_id api_id
    let creator_override_unlimited :=
      (user_api_config.map (fun c => c.creator_override_unlimited)).getD false
    let creator_override_monthly :=
      (user_api_config.bind (fun c => c.creator_override_monthly))
    let creator_override_daily :=
      (user_api_config.bind (fun c => c.creator_override_daily))
    if creator_override_unlimited then (s2, Except.ok true)
    else if creator_override_monthly.isSome ∨ creator_override_daily.isSome then
      if creator_override_monthly.isSome ∧
          current_monthly_usage ≥ creator_override_monthly.getD 0 then
        (s2, Except.ok false)
      else if creator_override_daily.isSome ∧
          current_daily_usage ≥ creator_override_daily.getD 0 then
        (s2, Except.ok false)
      else (s2, Except.ok true)
    else
      let user_defined_limit_monthly :=
        (user_api_config.bind (fun c => c.user_defined_limit_monthly))
      let user_defined_limit_daily :=
        (user_api_config.bind (fun c => c.user_defined_limit_daily))
      if user_defined_limit_monthly.isSome ∨ user_defined_limit_daily.isSome then
        if user_defined_limit_monthly.isSome ∧
            current_monthly_usage ≥ user_defined_limit_monthly.getD 0 then
          (s2, Except.ok false)
        else if user_defined_limit_daily.isSome ∧
            current_daily_usage ≥ user_defined_limit_daily.getD 0 then
          (s2, Except.ok false)
        else (s2, Except.ok true)
      else
        let (s3, global_api_limits_config) := get_api_limits_config s2
        let tier_limits :=
          ((global_api_limits_config.lookup p.tier)).getD TierLimits.empty
        let default_monthly_limit := tier_limits.monthly_calls.getD (-1)
        let default_daily_limit := tier_limits.daily_calls.getD (-1)
        let dynamic_monthly_adjustment :=
          tier_limits.dynamic_monthly_adjustment.getD 0
        let dynamic_daily_adjustment :=
          tier_limits.dynamic_daily_adjustment.getD 0
        let adjusted_monthly_limit :=
          default_monthly_limit + dynamic_monthly_adjustment
        let adjusted_daily_limit :=
          default_daily_limit + dynamic_daily_adjustment
        let adjusted_monthly_limit :=
          if default_monthly_limit ≠ -1 then max 0 adjusted_monthly_limit else -1
        let adjusted_daily_limit :=
          if default_daily_limit ≠ -1 then max 0 adjusted_daily_limit else -1
        if adjusted_monthly_limit ≠ -1 ∧
            current_monthly_usage ≥ adjusted_monthly_limit then
          (s3, Except.ok false)
        else if adjusted_daily_limit ≠ -1 ∧
            current_daily_usage ≥ adjusted_daily_limit then
          (s3, Except.ok false)
        else (s3, Except.ok true)

/-- `set_user_data_document` on the `api_usage` collection: replaces (or
creates) the document keyed by `(user_id, api_id)`. -/
def set_user_api_usage_document (s : Store) (uid api : String)
    (d : UsageData) : Store :=
  { s with api_usage :=
      (uid, api, d) :: (s.api_usage.filter
        (fun e => ¬ (e.1 = uid ∧ e.2.1 = api))) }

/-- Which document-store calls fail during one `increment_api_usage` run:
the read (`get_user_data_document`) and the write (`set_user_data_document`)
are each independently fallible. -/
structure Faults where
  readFails : Bool
  writeFails : Bool
deriving DecidableEq, Repr

/-- The body of `increment_api_usage`'s `try` block: read the usage document
(initialising it when absent), reconcile the period, add 1 to both counters,
and persist.  Either store call may raise. -/
def increment_api_usage_try (f : Faults) (uid api : String) (now : Now)
    (store : Store) : Except PyErr Store :=
  if f.readFails then Except.error PyErr.storeFailure
  else
    let (s1, usage?) := get_user_api_usage_document store uid api
    let usage_data :=
      match usage? with
      | none => initUsage now
      | some u => u
    let usage_data := _reset_usage_if_needed now usage_data
    let usage_data :=
      { usage_data with
          monthly_usage := usage_data.monthly_usage + 1
          daily_usage := usage_data.daily_usage + 1 }
    if f.writeFails then Except.error PyErr.storeFailure
    else Except.ok (set_user_api_usage_document s1 uid api usage_data)

/-- `increment_api_usage(user_id, api_id)`: the whole body sits in a
`try/except Exception` whose handler only logs — a failure leaves the store
as it was and the call returns normally (the source comment: "Do not raise
HTTPException here, as this is a background operation that shouldn't block
the main request"). -/
def increment_api_usage (f : Faults) (uid api : String) (now : Now)
    (store : Store) : Except PyErr Store :=
  match increment_api_usage_try f uid api now store with
  | Except.ok s => Except.ok s
  | Except.error _ => Except.ok store

/-! ## Concurrency model for the increment

`increment_api_usage` performs two document-store operations: one read and
one full-document write (no atomic numeric increment).  Two concurrent calls
for the same `(user_id, api_id)` are modelled as two threads, each executing
atomically the read (plus its purely local reconcile-and-add-1 computation)
and then the write; a schedule is the interleaving of those four atomic
store operations. -/

/-- Progress of one increment thread: not yet started, holding the document
value it will write (computed from its read), or finished. -/
inductive Phase where
  | start : Phase
  | afterRead : UsageData → Phase
  | done : Phase
deriving DecidableEq, Repr

/-- Shared document plus the two threads' phases. -/
structure ConcState where
  shared : Option UsageData
  t1 : Phase
  t2 : Phase
deriving DecidableEq, Repr

/-- The value an increment run computes locally from the document it read:
initialise when absent, reconcile the period, add 1 to both counters. -/
def incrementedDoc (now : Now) (read? : Option UsageData) : UsageData :=
  let usage_data :=
    match read? with
    | none => initUsage now
    | some u => u
  let usage_data := _reset_usage_if_needed now usage_data
  { usage_data with
      monthly_usage := usage_data.monthly_usage + 1
      daily_usage := usage_data.daily_usage + 1 }

/-- One atomic store operation of an increment thread: its read (with the
local computation of the document to write) or its write. -/
def stepThread (now : Now) (ph : Phase) (shared : Option UsageData) :
    Phase × Option UsageData :=
  match ph with
  | Phase.start => (Phase.afterRead (incrementedDoc now shared), shared)
  | Phase.afterRead d => (Phase.done, some d)
  | Phase.done => (Phase.done, shared)

/-- Run a schedule: `true` steps thread 1, `false` steps thread 2. -/
def runSchedule (now : Now) (sched : List Bool) (st : ConcState) : ConcState :=
  match sched with
  | [] => st
  | b :: rest =>
      if b then
        let (ph, sh) := stepThread now st.t1 st.shared
        runSchedule now rest { shared := sh, t1 := ph, t2 := st.t2 }
      else
        let (ph, sh) := stepThread now st.t2 st.shared
        runSchedule now rest { shared := sh, t1 := st.t1, t2 := ph }

/-! ## Dynamic adjustment aggregator -/

/-- `_get_total_default_api_usage(api_id, period)`: iterate all user ids,
read each one's usage document for this API, and add the period counter only
when the document's stored period marker equals the current period string. -/
def _get_total_default_api_usage (users : List String) (store : Store)
    (api_id : String) (period : String) (now : Now) : Int :=
  let current_period_str := if period = "month" then now.monthStr else now.dayStr
  users.foldl
    (fun total uid =>
      match lookup2 store.api_usage uid api_id with
      | none => total
      | some u =>
          if period = "month" ∧ u.last_reset_month = current_period_str then
            total + u.monthly_usage
          else if period = "day" ∧ u.last_reset_day = current_period_str then
            total + u.daily_usage
          else total)
    0

/-- Python `int(original * factor)` for a factor `num/den` (`den > 0`):
exact truncation toward zero of the rational product.  The monthly factors
0.75 and 0.50 are exact binary floats, so for them this models the source's
float arithmetic exactly; 0.80 and 0.40 are not, and this models the exact
rational the source's float approximates (the difference is confined to
knife-edge magnitudes never at issue below). -/
def pyIntTimesFrac (original : Int) (num den : Nat) : Int :=
  if original ≥ 0 then Int.ofNat ((original.toNat * num) / den)
  else -(Int.ofNat (((-original).toNat * num) / den))

/-- The source's usage-percentage comparison
`usage_percentage >= rule["threshold"]`, where
`usage_percentage = (total / cap) * 100 if cap > 0 else 0`, written with
exact cross-multiplied integer arithmetic instead of float division. -/
def pctAtLeast (total cap threshold : Int) : Bool :=
  if cap > 0 then decide (total * 100 ≥ threshold * cap)
  else decide ((0 : Int) ≥ threshold)

/-- The hard-coded monthly `adjustment_rules` list, in source order, each
rule as `(threshold, factor numerator, factor denominator)`:
`[{threshold: 80, factor: 0.75}, {threshold: 90, factor: 0.50}]`. -/
def adjustment_rules_monthly : List (Int × Nat × Nat) := [(80, 3, 4), (90, 1, 2)]

/-- The hard-coded daily `adjustment_rules` list, in source order:
`[{threshold: 70, factor: 0.80}, {threshold: 90, factor: 0.40}]`. -/
def adjustment_rules_daily : List (Int × Nat × Nat) := [(70, 4, 5), (90, 2, 5)]

/-- The per-rule loop of `_adjust_tier_limits_dynamically` for one period of
one tier: the adjustment starts at 0; the FIRST rule in list order whose
threshold the usage percentage meets fires and the loop breaks — when it
fires on a non-unlimited original limit the adjustment becomes
`int(original * factor) - original`, and on an unlimited (-1) original the
loop still breaks with the adjustment left at 0. -/
def computeAdjustment (rules : List (Int × Nat × Nat)) (total cap : Int)
    (original : Int) : Int :=
  match rules with
  | [] => 0
  | (threshold, num, den) :: rest =>
      if pctAtLeast total cap threshold then
        if original ≠ -1 then pyIntTimesFrac original num den - original
        else 0
      else computeAdjustment rest total cap original

/-- The per-tier body of `_adjust_tier_limits_dynamically`: recompute both
dynamic adjustment fields of one tier from the global totals and caps and
the tier's static limits. -/
def adjustTier (total_monthly cap_monthly total_daily cap_daily : Int)
    (limits : TierLimits) : TierLimits :=
  let original_monthly := limits.monthly_calls.getD (-1)
  let original_daily := limits.daily_calls.getD (-1)
  { limits with
      dynamic_monthly_adjustment :=
        some (computeAdjustment adjustment_rules_monthly total_monthly
          cap_monthly original_monthly)
      dynamic_daily_adjustment :=
        some (computeAdjustment adjustment_rules_daily total_daily
          cap_daily original_daily) }

/-- The tier-map update `_adjust_tier_limits_dynamically` persists: every
tier's dynamic adjustment fields rewritten by the rule loop. -/
def _adjust_tier_limits_dynamically
    (total_monthly cap_monthly total_daily cap_daily : Int)
    (tiers : List (String × TierLimits)) : List (String × TierLimits) :=
  tiers.map (fun e =>
    (e.1, adjustTier total_monthly cap_monthly total_daily cap_daily e.2))

/-! ## Spec-side formulas (for comparison with the code)

These two definitions follow the words of the spec (§4.3 stage 4), not the
source, and exist only to be compared against `check_api_limit`. -/

/-- Spec §4.3 stage 4: "effective limit = `max(0, static_limit +
dynamic_adjustment)` unless `static_limit == -1` (unlimited sentinel), in
which case the effective limit stays -1 regardless of adjustment". -/
def specEffectiveLimit (staticLimit adj : Int) : Int :=
  if staticLimit = -1 then -1 else max 0 (staticLimit + adj)

/-- Spec §4.3 stage 4: a period denies when its effective limit is not the
unlimited sentinel and current usage meets or exceeds it. -/
def specLimitHit (eff usage : Int) : Bool :=
  decide (eff ≠ -1) && decide (usage ≥ eff)

/-- Spec §4.3 stage 2: a set (non-null) numeric creator override denies when
current usage meets or exceeds it; an unset override never denies. -/
def specOverrideHit (threshold? : Option Int) (usage : Int) : Bool :=
  match threshold? with
  | none => false
  | some t => decide (usage ≥ t)

/-! ## Concrete sample inputs used by witnesses and counterexamples -/

/-- A sample clock: October 12th, 2026 (UTC). -/
def exNow : Now := { monthStr := "2026-10", dayStr := "2026-10-12" }

/-- An ordinary free-tier user without the creator role. -/
def exUser : UserProfile :=
  { user_id := "u1", username := "alice", email := "alice@example.com"
    tier := "free", roles := ["user"], status := "active" }

/-- A profile holding the `creator` role. -/
def exCreator : UserProfile :=
  { user_id := "c1", username := "root", email := "root@example.com"
    tier := "free", roles := ["user", "creator"], status := "active" }

/-- A second creator-role profile (distinct concrete input). -/
def exCreator2 : UserProfile :=
  { user_id := "c2", username := "owner", email := "owner@example.com"
    tier := "pro", roles := ["creator"], status := "active" }

/-- An empty document store. -/
def exEmptyStore : Store :=
  { api_usage := [], user_api_configs := [], api_limits := none }

/-- Free-tier limits: 100 monthly calls, no daily entry, dynamic monthly
adjustment -30. -/
def exTier100 : TierLimits :=
  { monthly_calls := some 100, daily_calls := none
    dynamic_monthly_adjustment := some (-30), dynamic_daily_adjustment := none }

/-- A usage document in the current period with the given counters. -/
def exUsage (m d : Int) : UsageData :=
  { monthly_usage := m, daily_usage := d
    last_reset_month := "2026-10", last_reset_day := "2026-10-12" }

/-- Store for the spec's 71-vs-69 example: user `u1`, API `a`, monthly usage
`m`, free-tier limits `exTier100`, no user API config. -/
def exStoreTier (m : Int) : Store :=
  { api_usage := [("u1", "a", exUsage m 0)]
    user_api_configs := []
    api_limits := some [("free", exTier100)] }

/-- Store whose free tier is statically unlimited monthly (`-1`) with an
arbitrary dynamic monthly adjustment, and usage `m`. -/
def exStoreUnlimited (m adj : Int) : Store :=
  { api_usage := [("u1", "a", exUsage m 0)]
    user_api_configs := []
    api_limits := some
      [("free",
        { monthly_calls := some (-1), daily_calls := none
          dynamic_monthly_adjustment := some adj
          dynamic_daily_adjustment := none })] }

/-- Store for the precedence example: `creator_override_unlimited` set for
user `u1` on API `a`, while the free tier's static monthly limit is 0. -/
def exStoreOverrideUnlimited : Store :=
  { api_usage := [("u1", "a", exUsage 500 500)]
    user_api_configs :=
      [("u1", "a",
        { creator_override_unlimited := true
          creator_override_monthly := none, creator_override_daily := none
          user_defined_limit_monthly := none, user_defined_limit_daily := none })]
    api_limits := some
      [("free",
        { monthly_calls := some 0, daily_calls := some 0
          dynamic_monthly_adjustment := none
          dynamic_daily_adjustment := none })] }

/-- A numeric creator override (monthly 10, daily unset) alongside a
user-defined monthly limit of 1 — only the creator override may decide. -/
def exCfgNumeric : UserApiConfig :=
  { creator_override_unlimited := false
    creator_override_monthly := some 10, creator_override_daily := none
    user_defined_limit_monthly := some 1, user_defined_limit_daily := none }

/-- Store in which user `u1` has, for API `a`, the numeric creator override
`exCfgNumeric` and a generous tier default. -/
def exStoreOverrideNumeric : Store :=
  { api_usage := [("u1", "a", exUsage 10 0)]
    user_api_configs := [("u1", "a", exCfgNumeric)]
    api_limits := some [("free", exTier100)] }

/-- A run with no document-store faults. -/
def noFaults : Faults := { readFails := false, writeFails := false }

/-- Helper for C9: folding an accumulating step over a list equals the
starting value plus the sum of the per-element contributions. -/
theorem foldl_add_sum {α : Type} (f : α → Int) (step : Int → α → Int)
    (hstep : ∀ t x, step t x = t + f x) (l : List α) (a : Int) :
    l.foldl step a = a + (l.map f).sum := by
  induction l generalizing a with
  | nil => simp
  | cons x xs ih => simp [hstep, ih, add_assoc]

/-- Claim C1: the claim says the rule applied is the HIGHEST threshold met —
at ≥ 90% monthly utilization the factor 0.50 (adjustment
`floor(original * 0.50) - original = -50` for an original of 100).  The
code's `adjustment_rules` lists are ordered ASCENDING by threshold and the
loop breaks on the first rule whose threshold is met, so at 95% utilization
(total 95 of cap 100) the 80%-rule fires with factor 0.75 and the stored
monthly adjustment is `-25`, not `-50`; likewise the daily adjustment at 95%
is the 70%-rule's `-20`, not the 90%-rule's `-60`.  At 85% (only one
threshold met) code and claim agree on `-25`.  This contradicts the source's
own comment on the `break` ("Apply only the highest threshold rule"): the
claim matches the code's stated intent and the code's list order is the
slip. -/
theorem c1_dynamic_adjustment_applies_lowest_threshold :
    computeAdjustment adjustment_rules_monthly 95 100 100 = -25 ∧
    pyIntTimesFrac 100 1 2 - 100 = -50 ∧
    (-25 : Int) ≠ -50 ∧
    computeAdjustment adjustment_rules_monthly 85 100 100 = -25 ∧
    computeAdjustment adjustment_rules_daily 95 100 100 = -20 ∧
    pyIntTimesFrac 100 2 5 - 100 = -60 ∧
    (-20 : Int) ≠ -60 ∧
    adjustTier 95 100 95 100 exTier100 =
      { monthly_calls := some 100, daily_calls := none
        dynamic_monthly_adjustment := some (-25)
        dynamic_daily_adjustment := some 0 } := by
  decide

/-- Claim C2: the claim says a profile with role `creator` and the
`unlimited_api_access` flag set is allowed immediately and without raising.
In the code, `UserProfile` is a Pydantic model with no `unlimited_api_access`
field and no `get` method, so the stage-1 test
`user_profile.get('unlimited_api_access', False)` raises `AttributeError`
for EVERY caller whose roles contain `creator`, whatever the store holds:
`check_api_limit` never returns true on this path. -/
theorem c2_creator_unlimited_check_raises :
    ∀ store : Store,
      (check_api_limit exCreator "a" exNow store).2 =
        Except.error PyErr.attributeError :=
  fun _ => rfl

/-- Claim C5: `_reset_usage_if_needed` zeroes the daily counter and stamps
`last_reset_day` exactly when the stored day differs from the current UTC
day string, independently zeroes the monthly counter and stamps
`last_reset_month` exactly when the stored month differs from the current
month string (so both resets may fire in one call), and on the spec's
example — `last_reset_day` = yesterday, `daily_usage = 7`, month still
current — it zeroes only the daily counter. -/
theorem c5_reset_usage_periods_independent (now : Now) (u : UsageData) :
    ((_reset_usage_if_needed now u).daily_usage =
      if u.last_reset_day ≠ now.dayStr then 0 else u.daily_usage) ∧
    ((_reset_usage_if_needed now u).last_reset_day =
      if u.last_reset_day ≠ now.dayStr then now.dayStr else u.last_reset_day) ∧
    ((_reset_usage_if_needed now u).monthly_usage =
      if u.last_reset_month ≠ now.monthStr then 0 else u.monthly_usage) ∧
    ((_reset_usage_if_needed now u).last_reset_month =
      if u.last_reset_month ≠ now.monthStr then now.monthStr
      else u.last_reset_month) ∧
    (_reset_usage_if_needed exNow
      { monthly_usage := 3, daily_usage := 7
        last_reset_month := "2026-10", last_reset_day := "2026-10-11" } =
      { monthly_usage := 3, daily_usage := 0
        last_reset_month := "2026-10", last_reset_day := "2026-10-12" }) := by
  refine ⟨?_, ?_, ?_, ?_, by decide⟩ <;>
    · simp only [_reset_usage_if_needed]
      split_ifs <;> simp_all

/-- Claim C3: in stage 4 (caller is not a creator, so stage 1 neither
allows nor raises, and there is no UserApiConfig record, so stages 2 and 3
fall through), the outcome of `check_api_limit` is allow exactly when
post-reconciliation usage is under both effective limits, where the
effective limit of a period is `max(0, static + adjustment)` for a
non-unlimited static limit and stays `-1` when the static limit is `-1`
(`specEffectiveLimit` / `specLimitHit` transcribe the spec's wording);
consequently, for a statically unlimited monthly limit the check allows
every usage value whatever the dynamic adjustment is. -/
theorem c3_stage4_effective_limits (p : UserProfile) (api_id : String)
    (now : Now) (store : Store) (tl : TierLimits) (usage : UsageData)
    (hcr : "creator" ∉ p.roles)
    (hcfg : lookup2 store.user_api_configs p.user_id api_id = none)
    (husage : reconciledUsage now (lookup2 store.api_usage p.user_id api_id) =
      usage)
    (htl : ((store.api_limits.getD []).lookup p.tier).getD TierLimits.empty =
      tl) :
    ((check_api_limit p api_id now store).2 =
      Except.ok (!(specLimitHit
          (specEffectiveLimit (tl.monthly_calls.getD (-1))
            (tl.dynamic_monthly_adjustment.getD 0)) usage.monthly_usage ||
        specLimitHit
          (specEffectiveLimit (tl.daily_calls.getD (-1))
            (tl.dynamic_daily_adjustment.getD 0)) usage.daily_usage))) ∧
    (∀ m adj : Int,
      (check_api_limit exUser "a" exNow (exStoreUnlimited m adj)).2 =
        Except.ok true) := by
  have hgen : ∀ (q : UserProfile) (aid : String) (n : Now) (st : Store)
      (L : TierLimits) (ug : UsageData),
      "creator" ∉ q.roles →
      lookup2 st.user_api_configs q.user_id aid = none →
      reconciledUsage n (lookup2 st.api_usage q.user_id aid) = ug →
      ((st.api_limits.getD []).lookup q.tier).getD TierLimits.empty = L →
      (check_api_limit q aid n st).2 =
        Except.ok (!(specLimitHit
            (specEffectiveLimit (L.monthly_calls.getD (-1))
              (L.dynamic_monthly_adjustment.getD 0)) ug.monthly_usage ||
          specLimitHit
            (specEffectiveLimit (L.daily_calls.getD (-1))
              (L.dynamic_daily_adjustment.getD 0)) ug.daily_usage)) := by
    intro q aid n st L ug hcr2 hcfg2 husage2 htl2
    unfold check_api_limit
    dsimp only [get_user_api_usage_document, get_user_api_config_document,
      get_api_limits_config]
    rw [husage2, hcfg2, htl2]
    simp only [if_neg hcr2]
    simp [specLimitHit, specEffectiveLimit]
    split_ifs <;> simp_all <;> omega
  refine ⟨hgen p api_id now store tl usage hcr hcfg husage htl, ?_⟩
  intro m adj
  have h := hgen exUser "a" exNow (exStoreUnlimited m adj)
      { monthly_calls := some (-1), daily_calls := none
        dynamic_monthly_adjustment := some adj
        dynamic_daily_adjustment := none }
      (exUsage m 0) (by decide) rfl
      (by simp [exStoreUnlimited, exUser, lookup2, reconciledUsage,
        _reset_usage_if_needed, exUsage, exNow])
      (by simp [exStoreUnlimited, exUser, List.lookup])
  simpa [specEffectiveLimit, specLimitHit] using h

/-- Witness for C3: the spec's 71-versus-70 example — free tier, static
monthly limit 100, dynamic adjustment -30, usage 71 — evaluates to deny. -/
theorem c3_stage4_effective_limits_witness :
    ("creator" ∉ exUser.roles) ∧
    lookup2 (exStoreTier 71).user_api_configs exUser.user_id "a" = none ∧
    reconciledUsage exNow (lookup2 (exStoreTier 71).api_usage exUser.user_id
      "a") = exUsage 71 0 ∧
    (((exStoreTier 71).api_limits.getD []).lookup exUser.tier).getD
      TierLimits.empty = exTier100 ∧
    (check_api_limit exUser "a" exNow (exStoreTier 71)).2 =
      Except.ok (!(specLimitHit
          (specEffectiveLimit (exTier100.monthly_calls.getD (-1))
            (exTier100.dynamic_monthly_adjustment.getD 0))
          (exUsage 71 0).monthly_usage ||
        specLimitHit
          (specEffectiveLimit (exTier100.daily_calls.getD (-1))
            (exTier100.dynamic_daily_adjustment.getD 0))
          (exUsage 71 0).daily_usage)) :=
  ⟨by decide, by decide, by decide, by decide,
    (c3_stage4_effective_limits exUser "a" exNow (exStoreTier 71) exTier100
      (exUsage 71 0) (by decide) (by decide) (by decide) (by decide)).1⟩

/-- Claim C4: in stage 2 (caller is not a creator and a UserApiConfig
record exists), `creator_override_unlimited` forces allow regardless of
everything else; otherwise, when at least one numeric creator override is
set, the outcome is decided solely by the set overrides — deny exactly when
post-reconciliation usage meets or exceeds a set threshold
(`specOverrideHit` transcribes the spec's wording; an unset period never
denies and nothing falls through to the user-defined or tier stages). -/
theorem c4_creator_override_short_circuits (p : UserProfile) (api_id : String)
    (now : Now) (store : Store) (c : UserApiConfig) (usage : UsageData)
    (hcr : "creator" ∉ p.roles)
    (hcfg : lookup2 store.user_api_configs p.user_id api_id = some c)
    (husage : reconciledUsage now (lookup2 store.api_usage p.user_id api_id) =
      usage) :
    (c.creator_override_unlimited = true →
      (check_api_limit p api_id now store).2 = Except.ok true) ∧
    (c.creator_override_unlimited = false →
      (c.creator_override_monthly ≠ none ∨ c.creator_override_daily ≠ none) →
      (check_api_limit p api_id now store).2 =
        Except.ok (!(specOverrideHit c.creator_override_monthly
            usage.monthly_usage ||
          specOverrideHit c.creator_override_daily usage.daily_usage))) ∧
    (check_api_limit exUser "a" exNow exStoreOverrideUnlimited).2 =
      Except.ok true := by
  refine ⟨?_, ?_, rfl⟩
  · intro hu
    unfold check_api_limit
    dsimp only [get_user_api_usage_document, get_user_api_config_document,
      get_api_limits_config]
    rw [husage, hcfg]
    simp only [if_neg hcr]
    simp [hu]
  · intro hu hor
    unfold check_api_limit
    dsimp only [get_user_api_usage_document, get_user_api_config_document,
      get_api_limits_config]
    rw [husage, hcfg]
    simp only [if_neg hcr]
    cases cm : c.creator_override_monthly with
    | none =>
        cases cd : c.creator_override_daily with
        | none => simp [cm, cd] at hor
        | some d =>
            simp [hu, cm, cd, specOverrideHit]
            split_ifs <;> simp_all
    | some m =>
        cases cd : c.creator_override_daily with
        | none =>
            simp [hu, cm, cd, specOverrideHit]
            split_ifs <;> simp_all
        | some d =>
            simp [hu, cm, cd, specOverrideHit]
            split_ifs <;> simp_all

/-- Witness for C4: usage 10 against a creator monthly override of 10
denies, even though the user-defined monthly limit of 1 in the same record
is also exceeded and is ignored. -/
theorem c4_creator_override_short_circuits_witness :
    ("creator" ∉ exUser.roles) ∧
    lookup2 exStoreOverrideNumeric.user_api_configs exUser.user_id "a" =
      some exCfgNumeric ∧
    reconciledUsage exNow (lookup2 exStoreOverrideNumeric.api_usage
      exUser.user_id "a") = exUsage 10 0 ∧
    (check_api_limit exUser "a" exNow exStoreOverrideNumeric).2 =
      Except.ok (!(specOverrideHit exCfgNumeric.creator_override_monthly
          (exUsage 10 0).monthly_usage ||
        specOverrideHit exCfgNumeric.creator_override_daily
          (exUsage 10 0).daily_usage)) :=
  ⟨by decide, by decide, by decide,
    (c4_creator_override_short_circuits exUser "a" exNow
        exStoreOverrideNumeric exCfgNumeric (exUsage 10 0) (by decide)
        (by decide) (by decide)).2.1 rfl (Or.inl (by decide))⟩

/-- Counterexample to C6 as stated: the claim quantifies over EVERY profile
without a UserApiConfig record, but a profile whose roles contain `creator`
makes `check_api_limit` raise `AttributeError` in stage 1 (the C2 slip)
instead of returning true, even with the api_limits document absent. -/
theorem c6_counterexample_creator_profile_raises :
    (check_api_limit exCreator2 "b" exNow exEmptyStore).2 =
      Except.error PyErr.attributeError ∧
    (check_api_limit exCreator2 "b" exNow exEmptyStore).2 ≠
      Except.ok true := by
  refine ⟨rfl, ?_⟩
  intro h
  rw [show (check_api_limit exCreator2 "b" exNow exEmptyStore).2 =
    Except.error PyErr.attributeError from rfl] at h
  exact Except.noConfusion h

/-- Claim C6 (amended): for every profile whose roles do not contain
`creator`, with no UserApiConfig record, and whose tier has no entry in the
api-limits configuration — or with the api_limits document absent entirely —
`check_api_limit` returns true whatever usage the store holds: the missing
`monthly_calls` and `daily_calls` default to the unlimited sentinel -1, so
the quota check fails open on missing configuration. -/
theorem c6_missing_config_fails_open (p : UserProfile) (api_id : String)
    (now : Now) (store : Store)
    (hcr : "creator" ∉ p.roles)
    (hcfg : lookup2 store.user_api_configs p.user_id api_id = none)
    (hlim : store.api_limits = none ∨
      (store.api_limits.getD []).lookup p.tier = none) :
    (check_api_limit p api_id now store).2 = Except.ok true := by
  unfold check_api_limit
  dsimp only [get_user_api_usage_document, get_user_api_config_document,
    get_api_limits_config]
  rw [hcfg]
  simp only [if_neg hcr]
  have htl : ((store.api_limits.getD []).lookup p.tier).getD TierLimits.empty =
      TierLimits.empty := by
    cases hlim with
    | inl h => simp [h]
    | inr h => simp [h]
  rw [htl]
  simp [TierLimits.empty]

/-- Witness for C6 (amended): an ordinary user against an entirely empty
store — no usage record, no config, no api_limits document — is allowed. -/
theorem c6_missing_config_fails_open_witness :
    ("creator" ∉ exUser.roles) ∧
    lookup2 exEmptyStore.user_api_configs exUser.user_id "a" = none ∧
    (exEmptyStore.api_limits = none ∨
      (exEmptyStore.api_limits.getD []).lookup exUser.tier = none) ∧
    (check_api_limit exUser "a" exNow exEmptyStore).2 = Except.ok true :=
  ⟨by decide, by decide, Or.inl (by decide),
    c6_missing_config_fails_open exUser "a" exNow exEmptyStore (by decide)
      (by decide) (Or.inl (by decide))⟩

/-- Counterexample to C7 as stated: the increment is a read-modify-write
(document get, local add, document set), not an atomic numeric increment, so
the interleaving read1-read2-write1-write2 of two concurrent increments
(threads starting from a stored counter of 5 in the current period) finishes
both threads with the shared counter at 6, not 5 + 2: one update is lost. -/
theorem c7_counterexample_concurrent_lost_update :
    (runSchedule exNow [true, false, true, false]
      { shared := some (exUsage 5 5), t1 := Phase.start, t2 := Phase.start }) =
      { shared := some (exUsage 6 6), t1 := Phase.done, t2 := Phase.done } ∧
    (6 : Int) ≠ 5 + 2 := by
  exact ⟨rfl, by decide⟩

/-- Claim C7 (amended): two SEQUENTIAL `increment_api_usage` calls for the
same user and API within the same period (and without store faults) leave
both counters increased by exactly 2; but because the write is a whole-
document set following a separate read, there is a concurrent interleaving
of the two calls' store operations that completes both and increases the
counters by only 1 (a lost update). -/
theorem c7_sequential_two_concurrent_may_lose (uid api_id : String)
    (now : Now) (store : Store) (u0 : UsageData)
    (h1 : lookup2 store.api_usage uid api_id = some u0)
    (hm : u0.last_reset_month = now.monthStr)
    (hd : u0.last_reset_day = now.dayStr) :
    (∃ s1 s2,
      increment_api_usage noFaults uid api_id now store = Except.ok s1 ∧
      increment_api_usage noFaults uid api_id now s1 = Except.ok s2 ∧
      lookup2 s2.api_usage uid api_id =
        some { u0 with monthly_usage := u0.monthly_usage + 2
                       daily_usage := u0.daily_usage + 2 }) ∧
    (∃ sched : List Bool,
      (runSchedule now sched
        { shared := some u0, t1 := Phase.start, t2 := Phase.start }) =
      { shared := some { u0 with monthly_usage := u0.monthly_usage + 1
                                 daily_usage := u0.daily_usage + 1 }
        t1 := Phase.done, t2 := Phase.done }) := by
  have hrec : _reset_usage_if_needed now u0 = u0 := by
    simp [_reset_usage_if_needed, hm, hd]
  constructor
  · have e1 : increment_api_usage noFaults uid api_id now store =
        Except.ok (set_user_api_usage_document store uid api_id
          { u0 with monthly_usage := u0.monthly_usage + 1
                    daily_usage := u0.daily_usage + 1 }) := by
      unfold increment_api_usage increment_api_usage_try
      simp [noFaults, get_user_api_usage_document, h1, hrec]
    refine ⟨set_user_api_usage_document store uid api_id
        { u0 with monthly_usage := u0.monthly_usage + 1
                  daily_usage := u0.daily_usage + 1 },
      set_user_api_usage_document
        (set_user_api_usage_document store uid api_id
          { u0 with monthly_usage := u0.monthly_usage + 1
                    daily_usage := u0.daily_usage + 1 }) uid api_id
        { u0 with monthly_usage := u0.monthly_usage + 2
                  daily_usage := u0.daily_usage + 2 },
      e1, ?_, ?_⟩
    · unfold increment_api_usage increment_api_usage_try
      simp only [noFaults, get_user_api_usage_document]
      rw [show lookup2 (set_user_api_usage_document store uid api_id
          { u0 with monthly_usage := u0.monthly_usage + 1
                    daily_usage := u0.daily_usage + 1 }).api_usage uid api_id =
        some { u0 with monthly_usage := u0.monthly_usage + 1
                       daily_usage := u0.daily_usage + 1 } by
          simp [set_user_api_usage_document, lookup2]]
      simp [_reset_usage_if_needed, hm, hd,
        show ∀ x : Int, x + 1 + 1 = x + 2 from fun x => by omega]
    · simp [set_user_api_usage_document, lookup2]
  · refine ⟨[true, false, true, false], ?_⟩
    simp [runSchedule, stepThread, incrementedDoc, hrec]

/-- Witness for C7 (amended): starting from a stored counter of 5 in the
current period, the two sequential increments land at 7 and a lost-update
schedule exists. -/
theorem c7_sequential_two_concurrent_may_lose_witness :
    lookup2 (exStoreTier 5).api_usage "u1" "a" = some (exUsage 5 0) ∧
    (exUsage 5 0).last_reset_month = exNow.monthStr ∧
    (exUsage 5 0).last_reset_day = exNow.dayStr ∧
    ((∃ s1 s2,
      increment_api_usage noFaults "u1" "a" exNow (exStoreTier 5) =
        Except.ok s1 ∧
      increment_api_usage noFaults "u1" "a" exNow s1 = Except.ok s2 ∧
      lookup2 s2.api_usage "u1" "a" =
        some { exUsage 5 0 with
          monthly_usage := (exUsage 5 0).monthly_usage + 2
          daily_usage := (exUsage 5 0).daily_usage + 2 }) ∧
    (∃ sched : List Bool,
      (runSchedule exNow sched
        { shared := some (exUsage 5 0), t1 := Phase.start
          t2 := Phase.start }) =
      { shared := some { exUsage 5 0 with
          monthly_usage := (exUsage 5 0).monthly_usage + 1
          daily_usage := (exUsage 5 0).daily_usage + 1 }
        t1 := Phase.done, t2 := Phase.done })) :=
  ⟨by decide, by decide, by decide,
    c7_sequential_two_concurrent_may_lose "u1" "a" exNow (exStoreTier 5)
      (exUsage 5 0) (by decide) (by decide) (by decide)⟩

/-- Claim C8: `increment_api_usage` never raises — it always returns
normally, and on any store fault (failed read or failed write, which make
the `try` body raise) it swallows the error and leaves the store as it
was. -/
theorem c8_increment_never_raises (f : Faults) (uid api_id : String)
    (now : Now) (store : Store) :
    (∃ s, increment_api_usage f uid api_id now store = Except.ok s) ∧
    ((f.readFails = true ∨ f.writeFails = true) →
      increment_api_usage f uid api_id now store = Except.ok store ∧
      ∃ e, increment_api_usage_try f uid api_id now store = Except.error e) := by
  constructor
  · unfold increment_api_usage
    cases h : increment_api_usage_try f uid api_id now store with
    | ok s => exact ⟨s, rfl⟩
    | error e => exact ⟨store, rfl⟩
  · intro hf
    have herr : ∃ e, increment_api_usage_try f uid api_id now store =
        Except.error e := by
      unfold increment_api_usage_try
      cases hr : f.readFails with
      | true => exact ⟨PyErr.storeFailure, by simp⟩
      | false =>
          cases hw : f.writeFails with
          | true =>
              refine ⟨PyErr.storeFailure, ?_⟩
              simp [hr, hw, get_user_api_usage_document]
          | false => simp [hr, hw] at hf
    obtain ⟨e, he⟩ := herr
    refine ⟨?_, e, he⟩
    unfold increment_api_usage
    rw [he]

/-- Witness for C8: with a failing write, the increment still returns
normally and the store is untouched. -/
theorem c8_increment_never_raises_witness :
    (∃ s, increment_api_usage
      { readFails := false, writeFails := true } "u1" "a" exNow
      (exStoreTier 5) = Except.ok s) ∧
    increment_api_usage { readFails := false, writeFails := true } "u1" "a"
      exNow (exStoreTier 5) = Except.ok (exStoreTier 5) ∧
    ∃ e, increment_api_usage_try { readFails := false, writeFails := true }
      "u1" "a" exNow (exStoreTier 5) = Except.error e :=
  ⟨(c8_increment_never_raises { readFails := false, writeFails := true } "u1"
      "a" exNow (exStoreTier 5)).1,
    (c8_increment_never_raises { readFails := false, writeFails := true } "u1"
      "a" exNow (exStoreTier 5)).2 (Or.inr rfl)⟩

/-- Claim C9: `_get_total_default_api_usage` equals the sum over all users
of that user's stored counter for the period, counted only when the
record's stored period marker equals the current UTC period string; a
record with a stale marker (or no record) contributes zero — for both the
"month" and the "day" period. -/
theorem c9_total_usage_counts_current_period_only (users : List String)
    (store : Store) (api_id : String) (now : Now) :
    _get_total_default_api_usage users store api_id "month" now =
      (users.map (fun uid =>
        match lookup2 store.api_usage uid api_id with
        | none => 0
        | some u =>
            if u.last_reset_month = now.monthStr then u.monthly_usage
            else 0)).sum ∧
    _get_total_default_api_usage users store api_id "day" now =
      (users.map (fun uid =>
        match lookup2 store.api_usage uid api_id with
        | none => 0
        | some u =>
            if u.last_reset_day = now.dayStr then u.daily_usage
            else 0)).sum := by
  constructor
  · have e : _get_total_default_api_usage users store api_id "month" now =
        users.foldl (fun total uid =>
          match lookup2 store.api_usage uid api_id with
          | none => total
          | some u =>
              if ("month" : String) = "month" ∧ u.last_reset_month =
                  (if ("month" : String) = "month" then now.monthStr
                   else now.dayStr) then
                total + u.monthly_usage
              else if ("month" : String) = "day" ∧ u.last_reset_day =
                  (if ("month" : String) = "month" then now.monthStr
                   else now.dayStr) then
                total + u.daily_usage
              else total) 0 := rfl
    rw [e, foldl_add_sum (fun uid =>
        match lookup2 store.api_usage uid api_id with
        | none => 0
        | some u =>
            if u.last_reset_month = now.monthStr then u.monthly_usage else 0)
      _ ?_ users 0]
    · simp
    · intro t uid
      cases h : lookup2 store.api_usage uid api_id with
      | none => simp [h]
      | some u =>
          simp only [h]
          split_ifs <;> simp_all
  · have e : _get_total_default_api_usage users store api_id "day" now =
        users.foldl (fun total uid =>
          match lookup2 store.api_usage uid api_id with
          | none => total
          | some u =>
              if ("day" : String) = "month" ∧ u.last_reset_month =
                  (if ("day" : String) = "month" then now.monthStr
                   else now.dayStr) then
                total + u.monthly_usage
              else if ("day" : String) = "day" ∧ u.last_reset_day =
                  (if ("day" : String) = "month" then now.monthStr
                   else now.dayStr) then
                total + u.daily_usage
              else total) 0 := rfl
    rw [e, foldl_add_sum (fun uid =>
        match lookup2 store.api_usage uid api_id with
        | none => 0
        | some u =>
            if u.last_reset_day = now.dayStr then u.daily_usage else 0)
      _ ?_ users 0]
    · simp
    · intro t uid
      cases h : lookup2 store.api_usage uid api_id with
      | none => simp [h]
      | some u =>
          simp only [h]
          split_ifs <;> simp_all

/-- Claim C10: `check_api_limit` is read-only — for every profile, API id,
clock and store, the store after the call is the store before it, whatever
the outcome (including the creator-path AttributeError). -/
theorem c10_check_api_limit_no_mutation (p : UserProfile) (api_id : String)
    (now : Now) (store : Store) :
    (check_api_limit p api_id now store).1 = store := by
  unfold check_api_limit
  dsimp only [get_user_api_usage_document, get_user_api_config_document,
    get_api_limits_config]
  split_ifs <;> rfl

end ApiUsage
